import Mathlib

/-!
Verification of the A1 range-notation engine (`brettgws/sheets/a1.py`).

The Python module drives everything through three regular expressions and a
handful of methods on a mutable object.  We embed the code shallowly:

* a small backtracking regex interpreter (`matchRE`) reproducing Python's
  leftmost, greedy-with-backtracking semantics for the constructs actually
  used by the three patterns (`\s*`, `\w+`, `\d+`, `.+`, `[A-Z]{0,3}`,
  ordered alternation, optional groups, named captures, `$`);
* the column codec `col_to_int` / `int_to_col` copied branch by branch,
  including its floor-division carry logic;
* `extract_a1`, `valid_dimensions`, `set_a1`, `generate_a1`, `update`,
  `append_rows`/`append_cols`/`reduce_rows`/`reduce_cols`, `reshape`,
  `contains`, `__len__`, `__str__`, `__eq__` as pure functions over an
  explicit `A1State` record (the object's fields).

Python code that raises (`str + int` in `generate_a1`) is modelled in
`Except Unit`; everything else is total.  Machine integers are `Int`/`Nat`.
-/

namespace GWS

/-- Capture slots of the main pattern: 0 = sheet, 1 = start_col,
2 = start_row, 3 = end_col, 4 = end_row.  `none` means the group did not
participate in the match; Python's code only ever tests truthiness, for
which `none` and `some ""` agree. -/
structure Caps where
  g0 : Option (List Char)
  g1 : Option (List Char)
  g2 : Option (List Char)
  g3 : Option (List Char)
  g4 : Option (List Char)
deriving DecidableEq

def emptyCaps : Caps := ⟨none, none, none, none, none⟩

def setCap (g : Nat) (v : List Char) (c : Caps) : Caps :=
  match g, c with
  | 0, ⟨_, b, d, e, f⟩ => ⟨some v, b, d, e, f⟩
  | 1, ⟨a, _, d, e, f⟩ => ⟨a, some v, d, e, f⟩
  | 2, ⟨a, b, _, e, f⟩ => ⟨a, b, some v, e, f⟩
  | 3, ⟨a, b, d, _, f⟩ => ⟨a, b, d, some v, f⟩
  | _, ⟨a, b, d, e, _⟩ => ⟨a, b, d, e, some v⟩

/-- Regular-expression fragments used by the module's three patterns.
Quantified single-character classes are enough: the Python patterns never
nest quantifiers. -/
inductive RE where
  | eps
  | cls (p : Char → Bool)
  | cat (a b : RE)
  | alt (a b : RE)
  | opt (a : RE)
  | star (p : Char → Bool)
  | plus (p : Char → Bool)
  | rep (p : Char → Bool) (lo hi : Nat)
  | grp (g : Nat) (a : RE)
  | eos

/-- Length of the maximal run of characters satisfying `p`. -/
def countRun (p : Char → Bool) : List Char → Nat
  | [] => 0
  | ch :: t => if p ch then countRun p t + 1 else 0

/-- Try `f n`, `f (n-1)`, …, `f lo` in that order (greedy: longest first),
returning the first success. -/
def tryDown {α : Type} (f : Nat → Option α) (lo : Nat) : Nat → Option α
  | 0 => if lo = 0 then f 0 else none
  | n + 1 =>
    if n + 1 < lo then none
    else
      match f (n + 1) with
      | some r => some r
      | none => tryDown f lo n

/-- Backtracking matcher in continuation style.  `k` receives the rest of
the input and the captures accumulated on the current (not yet failed)
path; failed branches restore captures exactly as Python's engine does.
`eos` models `$`: end of input or a sole trailing newline. -/
def matchRE {α : Type} : RE → List Char → Caps → (List Char → Caps → Option α) → Option α
  | .eps, s, c, k => k s c
  | .cls p, s, c, k =>
    match s with
    | [] => none
    | ch :: t => if p ch then k t c else none
  | .cat a b, s, c, k => matchRE a s c (fun s' c' => matchRE b s' c' k)
  | .alt a b, s, c, k =>
    match matchRE a s c k with
    | some r => some r
    | none => matchRE b s c k
  | .opt a, s, c, k =>
    match matchRE a s c k with
    | some r => some r
    | none => k s c
  | .star p, s, c, k => tryDown (fun i => k (s.drop i) c) 0 (countRun p s)
  | .plus p, s, c, k => tryDown (fun i => k (s.drop i) c) 1 (countRun p s)
  | .rep p lo hi, s, c, k => tryDown (fun i => k (s.drop i) c) lo (min (countRun p s) hi)
  | .grp g a, s, c, k =>
    matchRE a s c (fun s' c' => k s' (setCap g (s.take (s.length - s'.length)) c'))
  | .eos, s, c, k => if s = [] ∨ s = ['\n'] then k s c else none

/-- Python `\w` (ASCII fragment). -/
def isWordCh (c : Char) : Bool := c.isAlphanum || c = '_'

/-- Python `\s`. -/
def isSpaceCh (c : Char) : Bool :=
  c = ' ' || c = '\t' || c = '\n' || c = '\r' || c = '\x0b' || c = '\x0c'

def isUpperCh (c : Char) : Bool := 'A' ≤ c && c ≤ 'Z'

def isDigitCh (c : Char) : Bool := c.isDigit

/-- Python `.` without DOTALL: any character except a newline. -/
def isDotCh (c : Char) : Bool := c ≠ '\n'

/-- Pattern `\w+|".+"|'.+'` — the sheet-title alternatives, in source order. -/
def titleRE : RE :=
  .alt (.plus isWordCh)
    (.alt (.cat (.cls (fun c => c = '"')) (.cat (.plus isDotCh) (.cls (fun c => c = '"'))))
      (.cat (.cls (fun c => c = '\'')) (.cat (.plus isDotCh) (.cls (fun c => c = '\'')))))

/-- Pattern `(?P<start_col>[A-Z]{0,3})?(?P<start_row>\d+)?:(?P<end_col>[A-Z]{0,3})?(?P<end_row>\d+)?`. -/
def boundsRE : RE :=
  .cat (.opt (.grp 1 (.rep isUpperCh 0 3)))
    (.cat (.opt (.grp 2 (.plus isDigitCh)))
      (.cat (.cls (fun c => c = ':'))
        (.cat (.opt (.grp 3 (.rep isUpperCh 0 3)))
          (.opt (.grp 4 (.plus isDigitCh))))))

/-- Pattern `_A1REGEXSTR`: `^\s*((?P<sheet>\w+|".+"|'.+')!)?(bounds)?\s*$`. -/
def a1RE : RE :=
  .cat (.star isSpaceCh)
    (.cat (.opt (.cat (.grp 0 titleRE) (.cls (fun c => c = '!'))))
      (.cat (.opt boundsRE)
        (.cat (.star isSpaceCh) .eos)))

/-- Run the main pattern, returning the captures of a successful match. -/
def extract_groups (a1 : String) : Option Caps :=
  matchRE a1RE a1.data emptyCaps (fun _ c => some c)

/-- Pattern `_A1COLREGEXSTR`: full match of `^[A-Z]{1,3}$`. -/
def colOk (s : String) : Bool :=
  (matchRE (.cat (.rep isUpperCh 1 3) .eos) s.data emptyCaps (fun _ c => some c)).isSome

/-- Pattern `_A1SHEETREGEXSTR` used as `re.match` truthiness: a prefix of the input
matches `^\s*(\w+|".+"|'.+')`. -/
def sheetPrefixOk (s : String) : Bool :=
  (matchRE (.cat (.star isSpaceCh) (.grp 0 titleRE)) s.data emptyCaps (fun _ c => some c)).isSome

/-- The fallback in `extract_a1`: `_A1SHEETREGEXSTR + '$'`, whose
`m.group(0)` is the whole matched span (leading whitespace included). -/
def fallbackG0 (s : String) : Option (List Char) :=
  matchRE (.cat (.star isSpaceCh) (.cat (.grp 0 titleRE) .eos)) s.data emptyCaps
    (fun s' _ => some (s.data.take (s.data.length - s'.length)))

/-- Python `re.match(r"^[a-zA-Z]+\w*$", a1)` — the bareword test in `generate_a1`. -/
def barewordOk (s : String) : Bool :=
  (matchRE (.cat (.plus (fun c => c.isAlpha)) (.cat (.star isWordCh) .eos)) s.data emptyCaps
    (fun _ c => some c)).isSome

/-- Constant `GoogleSheetsMaxColumns` from `sheets/__init__.py`. -/
def GoogleSheetsMaxColumns : Int := 18278

/-- Python `int` of a digit string (`int(m.group(...))`); 0 on empty. -/
def natOfDigits (l : List Char) : Nat :=
  l.foldl (fun n c => n * 10 + (c.toNat - 48)) 0

/-- Positional sum of `col_to_int`: `(ord v - 64) * 26 ** i` over the
reversed label, `i` counting up from 0. -/
def colSum : List Char → Nat → Nat
  | [], _ => 0
  | v :: t, i => (v.toNat - 64) * 26 ^ i + colSum t (i + 1)

/-- Method `col_to_int`: uppercase the input (Python `str.upper()`, modelled as a
character map), require `^[A-Z]{1,3}$`, then sum the bijective base-26
digits; 0 when the label is invalid. -/
def col_to_int (column : String) : Nat :=
  let c := String.mk (column.data.map Char.toUpper)
  if colOk c then colSum c.data.reverse 0 else 0

/-- One pass of the `for p in [2,1,0]` loop in `int_to_col`, with Python's
floor `divmod` and the `d > 26` carry correction. -/
def itcStep (p : Nat) (acc : String × Int) : String × Int :=
  let col := acc.1
  let i := acc.2
  let d := Int.fdiv i ((26 : Int) ^ p)
  let r := Int.fmod i ((26 : Int) ^ p)
  if d ≠ 0 then
    if d > 26 then
      (col.push 'Z', r + (d - 26) * (26 : Int) ^ p)
    else
      (col.push (Char.ofNat (d + 64).toNat), r)
  else (col, r)

/-- Method `int_to_col`: the source's three-place loop, applied when
`index <= GoogleSheetsMaxColumns`; empty string otherwise. -/
def int_to_col (index : Int) : String :=
  if index ≤ GoogleSheetsMaxColumns then
    (itcStep 0 (itcStep 1 (itcStep 2 ("", index)))).1
  else ""

/-- The tuple returned by `extract_a1`: (title, start col, start row,
end col, end row).  Rows are `Int` with 0 meaning unbounded. -/
structure Dims where
  sheet : String
  sc : String
  sr : Int
  ec : String
  er : Int
deriving DecidableEq

/-- The unbounded-start inference in `extract_a1`: `if sr and not sc`
anchor the start column at `'A'`, `elif sc and not sr` anchor the start
row at `1`. -/
def inferStart (sc : List Char) (sr : Int) : List Char × Int :=
  if sr ≠ 0 ∧ sc = [] then (['A'], sr)
  else if sc ≠ [] ∧ sr = 0 then (sc, 1)
  else (sc, sr)

/-- Method `extract_a1`: run the main pattern; on success read the truthy groups
and apply the unbounded-start inference; on failure fall back to the
anchored title-only pattern whose `group(0)` becomes the sheet. -/
def extract_a1 (a1 : String) : Dims :=
  match extract_groups a1 with
  | some m =>
    let scr := inferStart (m.g1.getD []) ((natOfDigits (m.g2.getD []) : Nat) : Int)
    ⟨String.mk (m.g0.getD []), String.mk scr.1, scr.2, String.mk (m.g3.getD []),
     ((natOfDigits (m.g4.getD []) : Nat) : Int)⟩
  | none =>
    match fallbackG0 a1 with
    | some g => ⟨String.mk g, "", 0, "", 0⟩
    | none => ⟨"", "", 0, "", 0⟩

/-- Evaluation of `extract_a1` on the main-pattern branch. -/
theorem extract_a1_of_groups (a : String) (m : Caps) (h : extract_groups a = some m) :
    extract_a1 a =
      ⟨String.mk (m.g0.getD []),
       String.mk (inferStart (m.g1.getD []) ((natOfDigits (m.g2.getD []) : Nat) : Int)).1,
       (inferStart (m.g1.getD []) ((natOfDigits (m.g2.getD []) : Nat) : Int)).2,
       String.mk (m.g3.getD []), ((natOfDigits (m.g4.getD []) : Nat) : Int)⟩ := by
  unfold extract_a1
  rw [h]

/-- Method `valid_dimensions`: no start at all is only allowed for a bare titled
sheet; when both columns are present the end column must not precede the
start column; everything else passes. -/
def valid_dimensions (d : Dims) : Bool :=
  if d.sc = "" ∧ d.sr = 0 then
    decide (¬(d.ec ≠ "" ∨ d.er ≠ 0 ∨ d.sheet = ""))
  else if d.sc ≠ "" ∧ d.ec ≠ "" then
    decide (col_to_int d.sc ≤ col_to_int d.ec)
  else true

/-- The instance fields of `GoogleSheetsA1Notation`, in `reset` order.
An empty `a1` means the object is invalid; empty/0 bounds mean unbounded. -/
structure A1State where
  a1 : String
  sheet : String
  start_col : String
  end_col : String
  start_col_int : Int
  end_col_int : Int
  start_row : Int
  end_row : Int
deriving DecidableEq

/-- Method `reset`: the all-empty (invalid) state. -/
def resetState : A1State := ⟨"", "", "", "", 0, 0, 0, 0⟩

/-- The state written by a successful `set_a1`: the input string is stored
verbatim alongside the extracted dimensions and cached column indices. -/
def stateOf (a1 : String) (d : Dims) : A1State :=
  ⟨a1, d.sheet, d.sc, d.ec, (col_to_int d.sc : Nat), (col_to_int d.ec : Nat), d.sr, d.er⟩

/-- Method `set_a1`: extract, validate, and only then swap the whole state;
on failure the previous state is kept and `False` is reported. -/
def set_a1 (st : A1State) (a1 : String) : Bool × A1State :=
  let dims := extract_a1 a1
  if valid_dimensions dims then (true, stateOf a1 dims) else (false, st)

/-- Constructor `__init__`: reset, then `set_a1` when the argument is truthy. -/
def parse (s : String) : A1State :=
  if s = "" then resetState else (set_a1 resetState s).2

/-- Method `valid` / `__bool__`: the object is valid iff `_a1` is non-empty. -/
def valid (st : A1State) : Bool := st.a1 != ""

/-- Method `__str__`: the stored string, or the `<invalid>` placeholder. -/
def a1_str (st : A1State) : String := if st.a1 != "" then st.a1 else "<invalid>"

/-- Method `__eq__`: exact string comparison against `_a1`. -/
def a1_eq (st : A1State) (value : String) : Bool := st.a1 == value

/-- Property `rows_bounded`: both row ends are non-zero. -/
def rows_bounded (st : A1State) : Bool := st.start_row != 0 && st.end_row != 0

/-- Property `cols_bounded`: both column labels are non-empty. -/
def cols_bounded (st : A1State) : Bool := st.start_col != "" && st.end_col != ""

/-- Property `bounded`: rows and columns both bounded. -/
def bounded (st : A1State) : Bool := rows_bounded st && cols_bounded st

/-- Method `__len__`: `(end_row - start_row) * (end_col_int - start_col_int + 1)`
when fully bounded, otherwise 0. -/
def a1len (st : A1State) : Int :=
  if bounded st then (st.end_row - st.start_row) * (st.end_col_int - st.start_col_int + 1)
  else 0

/-- Method `contains`: both valid, same sheet, and the bounded/rows-only/cols-only
interval checks of the source, with a both-unbounded receiver containing
everything on its sheet. -/
def contains (st a : A1State) : Bool :=
  if valid a && valid st then
    if a.sheet == st.sheet then
      if bounded st then
        if bounded a then
          decide (a.start_col_int ≥ st.start_col_int) && decide (a.end_col_int ≤ st.end_col_int) &&
            decide (a.start_row ≥ st.start_row) && decide (a.end_row ≤ st.end_row)
        else false
      else if rows_bounded st then
        if rows_bounded a then
          decide (a.start_row ≥ st.start_row) && decide (a.end_row ≤ st.end_row)
        else false
      else if cols_bounded st then
        if cols_bounded a then
          decide (a.start_col_int ≥ st.start_col_int) && decide (a.end_col_int ≤ st.end_col_int)
        else false
      else true
    else false
  else false

/-- A `str|int` duck-typed column argument. -/
inductive PyVal where
  | s (v : String)
  | i (v : Int)
deriving DecidableEq

/-- Python truthiness of a `str|int` value. -/
def pyTruthy : PyVal → Bool
  | .s v => v != ""
  | .i v => v != 0

/-- Python `cls.int_to_col(x) if isinstance(x, int) else str(x)`. -/
def pyColStr : PyVal → String
  | .s v => v
  | .i v => int_to_col v

/-- Method `generate_a1`.  The `elif start_row:` branch concatenates the integer
`sr` onto the string `a1` (`a1 += sr`), which raises `TypeError` in Python
whenever it is reached with a positive start row; that is the
`Except.error` case.  All other paths return the built string. -/
def generate_a1 (sheet : String) (start_col : PyVal) (start_row : Int)
    (end_col : PyVal) (end_row : Int) : Except Unit String :=
  let a1 := sheet
  if sheetPrefixOk a1 then
    let a1 :=
      if !(a1.front = '\'' || a1.front = '"') then
        if barewordOk a1 then a1 else "\"" ++ a1 ++ "\""
      else a1
    if pyTruthy start_col then
      let sc := pyColStr start_col
      if colOk sc then
        let a1 := if a1 != "" then a1 ++ "!" else a1
        let a1 := a1 ++ sc
        let a1 := if start_row > 0 then a1 ++ toString start_row else a1
        if pyTruthy end_col then
          let ec := pyColStr end_col
          if colOk ec then
            let a1 := a1 ++ ":" ++ ec
            let a1 := if end_row > 0 then a1 ++ toString end_row else a1
            Except.ok a1
          else Except.ok a1
        else Except.ok a1
      else Except.ok a1
    else if start_row ≠ 0 then
      if start_row > 0 then Except.error () else Except.ok a1
    else Except.ok a1
  else Except.ok ""

/-- Instance `update`: keep current fields where the override is `None`,
render through `generate_a1`, and `set_a1` the result when non-empty. -/
def update (st : A1State) (sheet : Option String) (start_col : Option PyVal)
    (start_row : Option Int) (end_col : Option PyVal) (end_row : Option Int) :
    Except Unit (Bool × A1State) :=
  let s := sheet.getD st.sheet
  let sc := match start_col with | none => st.start_col | some v => pyColStr v
  let ec := match end_col with | none => st.end_col | some v => pyColStr v
  let sr := start_row.getD st.start_row
  let er := end_row.getD st.end_row
  match generate_a1 s (PyVal.s sc) sr (PyVal.s ec) er with
  | Except.error e => Except.error e
  | Except.ok a1 => Except.ok (if a1 != "" then set_a1 st a1 else (false, st))

/-- Method `append_rows`: no-op success unless rows are bounded and `rows ≠ 0`;
reject a non-positive new end row, otherwise update the end row. -/
def append_rows (st : A1State) (rows : Int) : Except Unit (Bool × A1State) :=
  if rows_bounded st && rows != 0 then
    let new_end_row := st.end_row + rows
    if new_end_row > 0 then update st none none none none (some new_end_row)
    else Except.ok (false, st)
  else Except.ok (true, st)

/-- Method `append_cols`: no-op success unless columns are bounded and `cols ≠ 0`;
reject a new end column outside `(0, GoogleSheetsMaxColumns]`, otherwise
update the end column by integer index. -/
def append_cols (st : A1State) (cols : Int) : Except Unit (Bool × A1State) :=
  if cols_bounded st && cols != 0 then
    let ec : Int := (col_to_int st.end_col : Nat)
    let new_end_col := ec + cols
    if new_end_col > 0 ∧ new_end_col ≤ GoogleSheetsMaxColumns then
      update st none none none (some (PyVal.i new_end_col)) none
    else Except.ok (false, st)
  else Except.ok (true, st)

/-- Method `reduce_rows`: `append_rows` of the negation. -/
def reduce_rows (st : A1State) (rows : Int) : Except Unit (Bool × A1State) :=
  append_rows st (-rows)

/-- Method `reduce_cols`: `append_cols` of the negation. -/
def reduce_cols (st : A1State) (cols : Int) : Except Unit (Bool × A1State) :=
  append_cols st (-cols)

/-- Method `reshape`: for non-negative extents, update to start at `A`/`1` with
the given end bounds (0 meaning unbounded); reject negative arguments. -/
def reshape (st : A1State) (rows cols : Int) : Except Unit (Bool × A1State) :=
  if rows ≥ 0 ∧ cols ≥ 0 then
    update st none (some (PyVal.i 1)) (some 1) (some (PyVal.i cols)) (some rows)
  else Except.ok (false, st)

instance {ε α : Type} [DecidableEq ε] [DecidableEq α] : DecidableEq (Except ε α) := fun a b =>
  match a, b with
  | Except.error e, Except.error f =>
    if h : e = f then isTrue (congrArg Except.error h)
    else isFalse fun hh => h (Except.error.inj hh)
  | Except.ok x, Except.ok y =>
    if h : x = y then isTrue (congrArg Except.ok h)
    else isFalse fun hh => h (Except.ok.inj hh)
  | Except.error _, Except.ok _ => isFalse fun hh => Except.noConfusion hh
  | Except.ok _, Except.error _ => isFalse fun hh => Except.noConfusion hh

/-- Validity of a dimension tuple, restated as the two claim-level
conditions: an empty start side forces a bare titled sheet, and a pair of
present columns must be weakly increasing. -/
theorem vd_iff (d : Dims) : valid_dimensions d = true ↔
    ((d.sc = "" ∧ d.sr = 0 → d.sheet ≠ "" ∧ d.ec = "" ∧ d.er = 0) ∧
     (d.sc ≠ "" → d.ec ≠ "" → col_to_int d.sc ≤ col_to_int d.ec)) := by
  unfold valid_dimensions
  by_cases h1 : d.sc = "" ∧ d.sr = 0
  · simp only [if_pos h1, decide_eq_true_eq]
    constructor
    · intro h
      push_neg at h
      exact ⟨fun _ => ⟨h.2.2, h.1, h.2.1⟩, fun hsc => absurd h1.1 hsc⟩
    · intro ⟨ha, _⟩
      obtain ⟨ht, hec, her⟩ := ha h1
      push_neg
      exact ⟨hec, her, ht⟩
  · simp only [if_neg h1]
    by_cases h2 : d.sc ≠ "" ∧ d.ec ≠ ""
    · simp only [if_pos h2, decide_eq_true_eq]
      constructor
      · intro h
        exact ⟨fun hse => absurd hse.1 h2.1, fun _ _ => h⟩
      · intro ⟨_, hb⟩
        exact hb h2.1 h2.2
    · simp only [if_neg h2]
      constructor
      · intro _
        refine ⟨fun hse => absurd ⟨hse.1, hse.2⟩ h1, fun hsc hec => absurd ⟨hsc, hec⟩ h2⟩
      · intro _
        trivial

/-- Parse validity coincides with `valid_dimensions` of the extraction
(including the empty string, which extracts to the all-empty, invalid
tuple). -/
theorem valid_parse (s : String) :
    valid (parse s) = true ↔ valid_dimensions (extract_a1 s) = true := by
  by_cases h : s = ""
  · subst h
    decide
  · unfold parse set_a1
    simp only [if_neg h]
    by_cases h2 : valid_dimensions (extract_a1 s) = true
    · simp only [if_pos h2, h2, iff_true]
      simp [valid, stateOf, h]
    · simp only [if_neg h2, h2, iff_false]
      simp [valid, resetState]

/-- C1: the claim says the column codec is a bijection on `[1, 18278]`.
The code is not: `int_to_col 26` yields `"A"` (its divmod loop mishandles
a zero remainder at a higher place), so `col_to_int (int_to_col 26) = 1`,
not `26`, even though `col_to_int "Z" = 26` and the label `"Z"` is the
true image of 26. -/
theorem c1_codec_round_trip_bug :
    int_to_col 26 = "A" ∧ col_to_int (int_to_col 26) = 1 ∧
    col_to_int "Z" = 26 ∧ int_to_col (col_to_int "Z") ≠ "Z" := by decide

/-- C2: the claim says a bare single cell such as `"test!A45"` parses as a
valid one-cell range.  The main pattern requires a colon inside its bounds
group and the fallback only accepts a plain title, so the code marks
`"test!A45"` invalid (the colon form `"test!A45:A45"` is accepted). -/
theorem c2_bare_cell_rejected :
    valid (parse "test!A45") = false ∧ valid (parse "test!A45:A45") = true := by decide

/-- C3 (counterexample): the claim asserts `parse "Sheet1!"` is invalid;
the code accepts it (the bounds group is entirely optional and
`valid_dimensions` then only requires a non-empty title). -/
theorem c3_title_bang_is_valid : valid (parse "Sheet1!") = true := by decide

/-- C3 (amended): parse marks an input invalid exactly when the extraction
has an empty start side (no start column and no start row, after anchor
inference) with an end token present or no title, or has both columns
present in decreasing order.  A start side present with an empty end side
is valid, and the bare `"title!"` form is valid title-only.  The claim's
three invalid examples stay invalid. -/
theorem c3_validity_characterization :
    (∀ a1 : String, valid (parse a1) = true ↔
      (((extract_a1 a1).sc = "" ∧ (extract_a1 a1).sr = 0 →
         (extract_a1 a1).sheet ≠ "" ∧ (extract_a1 a1).ec = "" ∧ (extract_a1 a1).er = 0) ∧
       ((extract_a1 a1).sc ≠ "" → (extract_a1 a1).ec ≠ "" →
         col_to_int (extract_a1 a1).sc ≤ col_to_int (extract_a1 a1).ec))) ∧
    valid (parse "test!:d3") = false ∧ valid (parse "test:") = false ∧
    valid (parse "test!F2:A3") = false ∧ valid (parse "test!A1:") = true :=
  ⟨fun a1 => (valid_parse a1).trans (vd_iff (extract_a1 a1)),
   by decide, by decide, by decide, by decide⟩

/-- C3 (witness): the characterization applied at `"test!B:Z"`, whose
extraction has a present start side and increasing columns. -/
theorem c3_validity_characterization_witness : valid (parse "test!B:Z") = true :=
  (c3_validity_characterization.1 "test!B:Z").mpr (by decide)

/-- C4: on any string matched by the main pattern, a present start row
with an absent start column resolves the start column to `"A"`,
symmetrically an absent start row resolves to `1`, and the end-side
components are taken verbatim from the match with no inference. -/
theorem c4_unbounded_start_inference :
    ∀ (a : String) (m : Caps), extract_groups a = some m →
      (((natOfDigits (m.g2.getD []) : Int) ≠ 0 ∧ m.g1.getD [] = [] →
         (extract_a1 a).sc = "A" ∧ (extract_a1 a).sr = (natOfDigits (m.g2.getD []) : Nat)) ∧
       (m.g1.getD [] ≠ [] ∧ (natOfDigits (m.g2.getD []) : Int) = 0 →
         (extract_a1 a).sc = String.mk (m.g1.getD []) ∧ (extract_a1 a).sr = 1) ∧
       (extract_a1 a).ec = String.mk (m.g3.getD []) ∧
       (extract_a1 a).er = (natOfDigits (m.g4.getD []) : Nat)) := by
  intro a m h
  rw [extract_a1_of_groups a m h]
  refine ⟨?_, ?_, rfl, rfl⟩
  · intro hc
    unfold inferStart
    rw [if_pos hc]
    exact ⟨rfl, rfl⟩
  · intro hc
    unfold inferStart
    rw [if_neg ?_, if_pos hc]
    · exact ⟨rfl, rfl⟩
    · intro hd
      exact hc.1 hd.2

/-- C4 (witness): `"test!4:ASC"` matches with an empty start-column group
and start row 4, and extraction yields start `A4` with end `ASC` and an
unbounded end row, exactly the claim's example. -/
theorem c4_unbounded_start_inference_witness :
    (extract_a1 "test!4:ASC").sc = "A" ∧ (extract_a1 "test!4:ASC").sr = 4 ∧
    (extract_a1 "test!4:ASC").ec = "ASC" ∧ (extract_a1 "test!4:ASC").er = 0 := by
  have hC : extract_groups "test!4:ASC" =
      some ⟨some "test".data, some [], some ['4'], some "ASC".data, none⟩ := by decide
  have H := c4_unbounded_start_inference "test!4:ASC" _ hC
  refine ⟨(H.1 (by decide)).1, ?_, ?_, ?_⟩
  · rw [(H.1 (by decide)).2]
    decide
  · rw [H.2.2.1]
    decide
  · rw [H.2.2.2]
    decide

/-- C5: the claim says `reshape` with non-negative extents always succeeds
and that 0 means unbounded.  In the code a zero column extent renders an
end-column-free string that drops the end row entirely (`"test!A1"`),
which the parser then rejects, so `reshape 0 0` and `reshape 5 0` report
failure and leave the range unchanged; only fully positive extents work. -/
theorem c5_reshape_zero_fails :
    reshape (parse "test!A1:B2") 0 0 = Except.ok (false, parse "test!A1:B2") ∧
    reshape (parse "test!A1:B2") 5 0 = Except.ok (false, parse "test!A1:B2") ∧
    Except.map (fun p => (p.1, p.2.a1)) (reshape (parse "test!A1:B2") 3 4) =
      Except.ok (true, "test!A1:D3") := by decide

/-- C6: the claim says a successful append increases the end bound by
exactly `n` and that a bounded dimension only fails on overflow/underflow.
The code disagrees twice: appending one column to `"test!A1:Y5"` reports
success but sets the end column to `"A"` (index 1, via the `int_to_col`
bug) instead of `"Z"` (index 26), and appending rows to the rows-bounded
`"test!A1:5"` fails outright (the regenerated string `"test!A1"` cannot be
reparsed) even though the new end row 7 is positive. -/
theorem c6_append_bug :
    Except.map (fun p => (p.1, p.2.end_col, p.2.end_col_int)) (append_cols (parse "test!A1:Y5") 1) =
      Except.ok (true, "A", 1) ∧
    rows_bounded (parse "test!A1:5") = true ∧
    append_rows (parse "test!A1:5") 2 = Except.ok (false, parse "test!A1:5") := by decide

/-- C9: the claim says every operation is total and `generate` always
returns a string.  `generate_a1` with a falsy start column and a positive
start row reaches `a1 += sr` with `sr` an integer, a Python `TypeError`,
modelled as the `Except.error` case. -/
theorem c9_generate_type_error :
    generate_a1 "test" (PyVal.s "") 5 (PyVal.s "") 0 = Except.error () := by decide

/-- C7: the cell count is `(end_row - start_row) * (end_col_int -
start_col_int + 1)` for every fully bounded state and 0 otherwise, and the
claim's four examples evaluate as stated through the parser. -/
theorem c7_cell_count :
    (∀ st : A1State, a1len st =
      if bounded st = true then
        (st.end_row - st.start_row) * (st.end_col_int - st.start_col_int + 1)
      else 0) ∧
    a1len (parse "test!6:A8") = 2 ∧ a1len (parse "test!B:Z") = 0 ∧
    a1len (parse "test") = 0 ∧ a1len (parse "test!6:10") = 0 :=
  ⟨fun _ => rfl, by decide, by decide, by decide, by decide⟩

/-- C7 (witness): the general formula applied to the parsed, fully bounded
range `"test!C4:BX2"` (whose row interval is reversed, so the product is
negative). -/
theorem c7_cell_count_witness : a1len (parse "test!C4:BX2") = -148 :=
  (c7_cell_count.1 (parse "test!C4:BX2")).trans (by decide)

/-- C8: `contains` is reflexive on valid states, false whenever the sheet
titles differ, and true for any valid state on the same sheet when the
receiver is unbounded in both dimensions. -/
theorem c8_contains_properties :
    (∀ r : A1State, valid r = true → contains r r = true) ∧
    (∀ r a : A1State, a.sheet ≠ r.sheet → contains r a = false) ∧
    (∀ r a : A1State, valid r = true → valid a = true → rows_bounded r = false →
      cols_bounded r = false → a.sheet = r.sheet → contains r a = true) := by
  refine ⟨?_, ?_, ?_⟩
  · intro r h
    unfold contains
    simp only [h, Bool.and_self, if_pos, beq_self_eq_true, if_true]
    by_cases hb : bounded r = true
    · simp [hb, le_refl]
    · simp only [hb, Bool.false_eq_true, if_false]
      by_cases hr : rows_bounded r = true
      · simp [hr, le_refl]
      · simp only [hr, Bool.false_eq_true, if_false]
        by_cases hc : cols_bounded r = true
        · simp [hc, le_refl]
        · simp [hc]
  · intro r a h
    unfold contains
    by_cases hv : (valid a && valid r) = true
    · have hs : (a.sheet == r.sheet) = false := by
        simp only [beq_eq_false_iff_ne, ne_eq]
        exact h
      simp [hv, hs]
    · simp [hv]
  · intro r a hr ha hrow hcol hsheet
    unfold contains
    have hb : bounded r = false := by
      unfold bounded
      simp [hrow]
    simp [hr, ha, hsheet, hb, hrow, hcol]

/-- C8 (witness): the three properties at the claim's concrete ranges. -/
theorem c8_contains_properties_witness :
    contains (parse "test!C4:AL22") (parse "test!C4:AL22") = true ∧
    contains (parse "test!C4:AL22") (parse "other!E7:Z22") = false ∧
    contains (parse "test") (parse "test!E7:Z22") = true :=
  ⟨c8_contains_properties.1 _ (by decide),
   c8_contains_properties.2.1 _ _ (by decide),
   c8_contains_properties.2.2 _ _ (by decide) (by decide) (by decide) (by decide) (by decide)⟩

/-- C10: a successfully parsed range stores the input string verbatim:
`__str__` reproduces it exactly and `__eq__` holds against precisely that
string. -/
theorem c10_verbatim_storage :
    ∀ s : String, (set_a1 resetState s).1 = true →
      a1_str (parse s) = s ∧ ∀ v : String, a1_eq (parse s) v = true ↔ v = s := by
  intro s h
  have hvd : valid_dimensions (extract_a1 s) = true := by
    by_contra hc
    unfold set_a1 at h
    rw [if_neg hc] at h
    exact Bool.false_ne_true h
  have hs : s ≠ "" := by
    intro he
    subst he
    revert hvd
    decide
  have hp : parse s = stateOf s (extract_a1 s) := by
    unfold parse set_a1
    rw [if_neg hs, if_pos hvd]
  have ha : (parse s).a1 = s := by
    rw [hp]
    rfl
  constructor
  · unfold a1_str
    rw [ha]
    simp [hs]
  · intro v
    unfold a1_eq
    rw [ha]
    constructor
    · intro hv
      exact (beq_iff_eq.mp hv).symm
    · intro hv
      rw [hv]
      exact beq_self_eq_true s

/-- C10 (witness): surrounding whitespace is kept verbatim by `__str__`,
and `__eq__` holds for the literal input but not for the structurally
equal canonical form with the inferred anchor written out. -/
theorem c10_verbatim_storage_witness :
    a1_str (parse " test!4:ASC ") = " test!4:ASC " ∧
    a1_eq (parse " test!4:ASC ") " test!4:ASC " = true ∧
    ¬a1_eq (parse " test!4:ASC ") "test!A4:ASC" = true :=
  ⟨(c10_verbatim_storage " test!4:ASC " (by decide)).1,
   ((c10_verbatim_storage " test!4:ASC " (by decide)).2 " test!4:ASC ").mpr rfl,
   fun hc =>
     by simpa using ((c10_verbatim_storage " test!4:ASC " (by decide)).2 "test!A4:ASC").mp hc⟩

end GWS
